import Mathlib

/-!
Verification of the Campus Voice complaint routing & workflow engine.

The definitions below are a shallow embedding of the Python backend
(`backend/server.py`, `backend/utils/conflict_detection.py`).  Python
strings become `String`, `Optional[str]` becomes `Option String`,
SQL row sets become Lean lists in store order, and the SQLAlchemy
session is modelled by threading an explicit session state plus a
`committed` flag (an endpoint that returns without calling
`session.commit()` leaves the durable store unchanged, because the
session is rolled back when it is closed by the dependency).
-/

namespace CampusVoice

/-! ## Text primitives (Python `str` operations used by the detector) -/

/-- `isPrefixL p t`: the char list `p` is a prefix of `t`. -/
def isPrefixL : List Char → List Char → Bool
  | [], _ => true
  | _ :: _, [] => false
  | a :: as, b :: bs => a == b && isPrefixL as bs

/-- Python `p in t` on strings: `p` occurs as a contiguous substring of `t`. -/
def containsSub (p : List Char) : List Char → Bool
  | [] => isPrefixL p []
  | c :: t => isPrefixL p (c :: t) || containsSub p (c :: t).tail

/-- Python `str.strip()`: drop leading and trailing whitespace. -/
def stripWs (l : List Char) : List Char :=
  ((l.dropWhile Char.isWhitespace).reverse.dropWhile Char.isWhitespace).reverse

/-- Worker for `splitWs`; `cur` is the current word accumulated in reverse. -/
def splitWsGo (cur : List Char) : List Char → List (List Char)
  | [] => if cur.isEmpty then [] else [cur.reverse]
  | c :: rest =>
    if c.isWhitespace then
      if cur.isEmpty then splitWsGo [] rest else cur.reverse :: splitWsGo [] rest
    else splitWsGo (c :: cur) rest

/-- Python `str.split()` with no argument: split on whitespace runs, no empty items. -/
def splitWs (l : List Char) : List (List Char) := splitWsGo [] l

/-- A regex word character (`\w` over ASCII): letter, digit or underscore. -/
def isWordChar (c : Char) : Bool := c.isAlphanum || c == '_'

/-- Wordness of the character at index `i` of `t` (out of range counts as non-word). -/
def wordAt (t : List Char) (i : Nat) : Bool :=
  match t.get? i with
  | some c => isWordChar c
  | none => false

/-- A regex word boundary `\b` holds at offset `i` of `t`. -/
def boundaryAt (t : List Char) (i : Nat) : Bool :=
  (if i = 0 then false else wordAt t (i - 1)) != wordAt t i

/-- The literal `part` matches at offset `i` of `t` with `\b` on both sides,
i.e. `re.search(r"\b" + re.escape(part) + r"\b", t)` succeeds at `i`. -/
def wholeWordAt (part t : List Char) (i : Nat) : Bool :=
  isPrefixL part (t.drop i) && boundaryAt t i && boundaryAt t (i + part.length)

/-- `re.search(r"\b" + re.escape(part) + r"\b", t) is not None`. -/
def wholeWordSearch (part t : List Char) : Bool :=
  (List.range (t.length + 1)).any (fun i => wholeWordAt part t i)

/-- Lowercase a Lean string into a char list (Python `str.lower()` over ASCII). -/
def lowerChars (s : String) : List Char := s.toList.map Char.toLower

/-! ## Conflict-of-interest detection
(`backend/utils/conflict_detection.py`) -/

/-- `normalize_name`: lowercase and strip whitespace. -/
def normalize_name (name : String) : List Char := stripWs (lowerChars name)

/-- `is_staff_mentioned_in_complaint(staff_name, complaint_title, complaint_description)`:
true when the normalized full name is a substring of the lowercased
"title description" text, or some name part longer than 2 characters
matches as a whole word. Empty `staff_name` short-circuits to false. -/
def is_staff_mentioned_in_complaint
    (staff_name complaint_title complaint_description : String) : Bool :=
  if staff_name = "" then false
  else
    let full_text := lowerChars (complaint_title ++ " " ++ complaint_description)
    let staff_name_lower := normalize_name staff_name
    let name_parts := splitWs staff_name_lower
    if containsSub staff_name_lower full_text then true
    else name_parts.any (fun part =>
      decide (part.length > 2) && wholeWordSearch part full_text)

/-- The spec's `IsMentioned` contract, written from the spec's words: the
lowercased, trimmed full name occurs as a substring of the lowercased
combined title+description text, or some whitespace-separated name token
of length strictly greater than 2 occurs as a case-insensitive
whole-word (word-boundary) match in that text. -/
def mentioned_spec (person_name title description : String) : Bool :=
  let text := lowerChars (title ++ " " ++ description)
  let full_name := stripWs (lowerChars person_name)
  containsSub full_name text ||
    (splitWs full_name).any (fun tok =>
      decide (tok.length > 2) && wholeWordSearch tok text)

/-- `can_user_verify_complaint(user_name, user_role, complaint_title,
complaint_description)`: a user mentioned in the complaint is blocked when
their role is hod (escalation wording) or staff/principal (flat denial);
everyone else may verify. -/
def can_user_verify_complaint
    (user_name user_role complaint_title complaint_description : String) :
    Bool × String :=
  if is_staff_mentioned_in_complaint user_name complaint_title complaint_description then
    if user_role = "hod" then
      (false,
        "You cannot verify this complaint as you (" ++ user_name ++
        ") are mentioned in it. This complaint will be escalated to a higher authority for review.")
    else if (["staff", "principal"] : List String).contains user_role then
      (false,
        "You cannot handle this complaint as you (" ++ user_name ++
        ") are mentioned in it.")
    else (true, "")
  else (true, "")

/-- `get_escalation_authority(blocked_user_role)`: static escalation map
hod → principal, principal → admin, staff → hod. -/
def get_escalation_authority (blocked_user_role : String) : Option String :=
  ([("hod", "principal"), ("principal", "admin"), ("staff", "hod")] :
    List (String × String)).lookup blocked_user_role

/-! ## Data model (`backend/models.py`, role/status string constants of
`backend/server.py`).  Roles are the strings "student", "admin", "hod",
"principal", "staff"; statuses are "submitted", "reviewed", "in_progress",
"resolved", "rejected". -/

structure User where
  id : String
  name : String
  role : String
  department : Option String
  staff_role : Option String
deriving DecidableEq

/-- One entry of a complaint's JSON `timeline` list: status updates append
a status/timestamp/note/updated_by dict, assignments append a
timestamp/action/by dict. -/
inductive TimelineEntry where
  | statusEntry (status : String) (timestamp : String) (note : String) (updated_by : String)
  | actionEntry (timestamp : String) (action : String) (byUser : String)
deriving DecidableEq

/-- One entry of a complaint's JSON `responses` list. -/
structure ResponseEntry where
  text : String
  responder_name : String
  responder_role : String
  timestamp : String
deriving DecidableEq

structure Complaint where
  id : String
  title : String
  description : String
  category : String
  status : String
  student_department : Option String
  assigned_to : Option String
  assigned_to_name : Option String
  assigned_at : Option String
  timeline : List TimelineEntry
  responses : List ResponseEntry
deriving DecidableEq

/-- The durable store: user rows and complaint rows, in store order. -/
structure Db where
  users : List User
  complaints : List Complaint
deriving DecidableEq

/-- The `current_user` dict produced by `get_current_user`. -/
structure Actor where
  id : String
  name : String
  role : String
  department : Option String
deriving DecidableEq

/-- Request body of `PUT /complaints/{id}` (`ComplaintUpdate`). -/
structure ComplaintUpdate where
  status : Option String
  response_text : Option String
  assigned_to : Option String
deriving DecidableEq

/-- Python truthiness of an `Optional[str]`: `None` and `""` are falsy. -/
def optTruthy : Option String → Bool
  | none => false
  | some s => s != ""

/-! ## Routing configuration (`backend/server.py`, module level) -/

/-- `HOD_CATEGORIES`: categories assigned only to the HOD of the student's
department. -/
def HOD_CATEGORIES : List String := ["Academic Issues", "Staff Behavior"]

/-- `CATEGORY_TO_STAFF_ROLE`: category → staff role mapping for
auto-assignment; HOD categories are deliberately absent. -/
def CATEGORY_TO_STAFF_ROLE : List (String × String) :=
  [("Sports", "Physical Director"),
   ("Library", "Librarian"),
   ("Discipline", "Discipline Coordinator"),
   ("Exam Cell", "Exam Cell Coordinator"),
   ("Accounts/Fees", "Accountant"),
   ("Transport", "Transport Manager"),
   ("Scholarship", "Scholarship Coordinator"),
   ("Placement/Training", "Placement & Training Coordinator"),
   ("Hostel", "Warden"),
   ("Infrastructure", "Infrastructure Coordinator"),
   ("Lab", "Lab Assistant"),
   ("Office", "Clerk")]

/-- Active load of a user: complaints assigned to them whose status is not
in (resolved, rejected) — the count query of `auto_assign_complaint`. -/
def active_load (db : Db) (staff_id : String) : Nat :=
  (db.complaints.filter (fun c =>
    c.assigned_to == some staff_id &&
    !(c.status == "resolved") && !(c.status == "rejected"))).length

/-- Row predicate of the HOD query: `role == HOD and department == d`. -/
def hod_match (d : String) (u : User) : Bool :=
  u.role == "hod" && u.department == some d

/-- Row predicate of the staff query: `role == STAFF and staff_role == target`. -/
def staff_role_match (target_role : String) (u : User) : Bool :=
  u.role == "staff" && u.staff_role == some target_role

/-- The selection loop of `auto_assign_complaint`: walk the staff list
keeping the first candidate whose active count is strictly below the
current minimum (`min_count` starts at infinity, so the first candidate is
always taken). -/
def pickBest (load : String → Nat) (acc : Option (User × Nat)) :
    List User → Option (User × Nat)
  | [] => acc
  | staff :: rest =>
    match acc with
    | none => pickBest load (some (staff, load staff.id)) rest
    | some (best, min_count) =>
      if load staff.id < min_count then
        pickBest load (some (staff, load staff.id)) rest
      else
        pickBest load (some (best, min_count)) rest

/-- `auto_assign_complaint(category, session, student_department)`:
HOD categories go to the first HOD row of the student's department;
other mapped categories go to the staff member with the fewest active
complaints among those holding the mapped staff role; everything else
(empty category, unmapped category, unknown department, empty pool)
yields no assignment. -/
def auto_assign_complaint (category : String) (db : Db)
    (student_department : Option String) : Option (String × String) :=
  if category = "" then none
  else if HOD_CATEGORIES.contains category then
    match student_department with
    | none => none
    | some d =>
      if d = "" then none
      else
        -- `session.execute(hod_stmt)` then `.first()`: the first user row
        -- matching the query predicate
        match db.users.find? (hod_match d) with
        | none => none
        | some hod => some (hod.id, hod.name)
  else
    match CATEGORY_TO_STAFF_ROLE.lookup category with
    | none => none
    | some target_role =>
      let staff_list := db.users.filter (staff_role_match target_role)
      if staff_list.isEmpty then none
      else
        match pickBest (active_load db) none staff_list with
        | none => none
        | some (best_staff, _) => some (best_staff.id, best_staff.name)

/-! ## Endpoint results.  `create_response(success, message, ..., status_code)`
is a JSON body; `escalateTo` models the `escalate_to` data payload of the
conflict rejection in `update_complaint_status`. -/

structure Response where
  success : Bool
  message : String
  statusCode : Nat
  escalateTo : Option String
deriving DecidableEq

/-- Result of a mutating endpoint: the HTTP response, the complaint row as
held by the SQLAlchemy session when the handler returned, and whether
`session.commit()` was reached.  A handler that returns early never
commits, and the session is rolled back on close. -/
structure UpdateResult where
  response : Response
  session : Option Complaint
  committed : Bool
deriving DecidableEq

/-- Result of `DELETE /complaints/{id}`. -/
structure DeleteResult where
  response : Response
  deleted : Bool
deriving DecidableEq

/-- Error response helper used by the guard-failure returns of
`update_complaint`: the handler returns without committing, with the
session holding the (possibly already locally mutated) row. -/
def guardFail (msg : String) (code : Nat) (c : Complaint) : UpdateResult :=
  { response := { success := false, message := msg, statusCode := code, escalateTo := none },
    session := some c, committed := false }

/-- The status block of `update_complaint`: when a (truthy) status is
supplied, write it and append the status timeline entry. -/
def apply_status_change (current_user : Actor) (update_data : ComplaintUpdate)
    (now : String) (c : Complaint) : Complaint :=
  if optTruthy update_data.status then
    { c with
      status := update_data.status.getD "",
      timeline := c.timeline ++
        [TimelineEntry.statusEntry (update_data.status.getD "") now
          ("Status updated to " ++ update_data.status.getD "") current_user.name] }
  else c

/-- The response block of `update_complaint`: when a (truthy) response
text is supplied, append the response entry. -/
def apply_response_append (current_user : Actor) (update_data : ComplaintUpdate)
    (now : String) (c : Complaint) : Complaint :=
  if optTruthy update_data.response_text then
    { c with responses := c.responses ++
        [⟨update_data.response_text.getD "", current_user.name, current_user.role, now⟩] }
  else c

/-- `PUT /complaints/{id}` (`update_complaint`): role gate, optional status
change (forbidden for HOD), optional response append, optional assignment
with HOD-category, department, front-line-role and conflict-of-interest
guards; only the fall-through path commits. -/
def update_complaint (current_user : Actor) (update_data : ComplaintUpdate)
    (complaint? : Option Complaint) (users : List User) (now : String) : UpdateResult :=
  if (["admin", "staff", "hod", "principal"] : List String).contains current_user.role = false then
    { response := ⟨false, "Permission denied", 403, none⟩,
      session := complaint?, committed := false }
  else
    match complaint? with
    | none =>
      { response := ⟨false, "Complaint not found", 404, none⟩,
        session := none, committed := false }
    | some c0 =>
      if optTruthy update_data.status && current_user.role == "hod" then
        { response := ⟨false,
            "HOD cannot accept, reject, or change complaint status. You can only view and assign complaints.",
            403, none⟩,
          session := some c0, committed := false }
      else
        let c1 := apply_status_change current_user update_data now c0
        let c2 := apply_response_append current_user update_data now c1
        if optTruthy update_data.assigned_to then
          if HOD_CATEGORIES.contains c2.category && !(current_user.role == "hod") then
            guardFail "Only the HOD can reassign complaints of this category." 403 c2
          else if HOD_CATEGORIES.contains c2.category &&
              !(current_user.department == c2.student_department) then
            guardFail "You can only reassign complaints from your own department." 403 c2
          else
            match users.find? (fun u => u.id == update_data.assigned_to.getD "") with
            | none => guardFail "Staff member not found" 404 c2
            | some assigned_user =>
              if HOD_CATEGORIES.contains c2.category &&
                  !(assigned_user.department == c2.student_department) then
                guardFail "Cannot assign - they are not in the student department." 400 c2
              else if HOD_CATEGORIES.contains c2.category &&
                  current_user.role == "hod" &&
                  !(assigned_user.staff_role == some "Assistant Professor") then
                guardFail "HOD can only assign Academic/Staff Behaviour complaints to Assistant Professors." 400 c2
              else if is_staff_mentioned_in_complaint assigned_user.name c2.title c2.description then
                guardFail "Cannot assign to this complaint - they are mentioned in the complaint. Please select a different staff member." 400 c2
              else
                let c3 := { c2 with
                  assigned_to := update_data.assigned_to,
                  assigned_to_name := some assigned_user.name,
                  assigned_at := some now }
                -- the source evaluates the Assigned/Reassigned wording after
                -- `assigned_to` has already been overwritten, so it tests the
                -- freshly written value
                let actionNote := if optTruthy c3.assigned_to then
                    "Reassigned to " ++ assigned_user.name
                  else "Assigned to " ++ assigned_user.name
                let c4 := { c3 with
                  timeline := c3.timeline ++
                    [TimelineEntry.actionEntry now actionNote current_user.name],
                  status := "in_progress" }
                { response := ⟨true, "Complaint updated successfully", 200, none⟩,
                  session := some c4, committed := true }
        else
          { response := ⟨true, "Complaint updated successfully", 200, none⟩,
            session := some c2, committed := true }

/-- `DELETE /complaints/{id}` (`delete_complaint`): not-found, then the
confirmation gate, then admin / staff(own + resolved) / deny. -/
def delete_complaint (complaint? : Option Complaint) (confirm : Bool)
    (current_user : Actor) : DeleteResult :=
  match complaint? with
  | none => ⟨⟨false, "Complaint not found", 404, none⟩, false⟩
  | some c =>
    if !confirm then
      ⟨⟨false, "Confirmation required. Pass confirm=true to delete.", 400, none⟩, false⟩
    else if current_user.role == "admin" then
      ⟨⟨true, "Complaint deleted successfully", 200, none⟩, true⟩
    else if current_user.role == "staff" then
      if !(c.assigned_to == some current_user.id) then
        ⟨⟨false, "You can only complete complaints assigned to you", 403, none⟩, false⟩
      else if !(c.status == "resolved") then
        ⟨⟨false, "Complaint must be resolved before completing", 400, none⟩, false⟩
      else ⟨⟨true, "Complaint completed successfully", 200, none⟩, true⟩
    else ⟨⟨false, "Permission denied", 403, none⟩, false⟩

/-- Role list passed to `require_roles` on the
`POST /complaints/{id}/status` route.  The dependency denies any user
whose role string is not in this list (the stored role strings are
lowercase, so none of them ever matches). -/
def STATUS_ENDPOINT_ROLES : List String := ["HOD", "PRINCIPAL", "ADMIN"]

/-- The role test of `require_roles(*allowed_roles)` in `server.py`:
access requires the user's role to be contained in the allowed list. -/
def require_roles_allows (allowed_roles : List String) (role : String) : Bool :=
  allowed_roles.contains role

/-- Handler body of `POST /complaints/{id}/status`
(`update_complaint_status`), after the dependency gate: not-found check,
conflict-of-interest gate via `can_user_verify_complaint` (rejection
carries `escalate_to = get_escalation_authority(role)`), then the status
write, timeline append and commit. -/
def update_complaint_status (user : Actor) (status remarks : String)
    (complaint? : Option Complaint) (now : String) : UpdateResult :=
  match complaint? with
  | none =>
    { response := ⟨false, "Complaint not found", 404, none⟩,
      session := none, committed := false }
  | some c =>
    let cv := can_user_verify_complaint user.name user.role c.title c.description
    if !cv.1 then
      { response := ⟨false, cv.2, 403, get_escalation_authority user.role⟩,
        session := some c, committed := false }
    else
      let c' := { c with
        status := status,
        timeline := c.timeline ++ [TimelineEntry.statusEntry status now remarks user.name] }
      { response := ⟨true, "", 200, none⟩, session := some c', committed := true }

/-! ## Durable effect of each endpoint.  SQLAlchemy discards every
uncommitted change when the request's session is closed, so the durable
row after a handler is the session row when it committed and the original
row otherwise. -/

/-- Durable complaint row after `update_complaint`. -/
def persisted_update (current_user : Actor) (update_data : ComplaintUpdate)
    (complaint? : Option Complaint) (users : List User) (now : String) : Option Complaint :=
  let r := update_complaint current_user update_data complaint? users now
  if r.committed then r.session else complaint?

/-- Durable complaint row after `delete_complaint`. -/
def persisted_delete (complaint? : Option Complaint) (confirm : Bool)
    (current_user : Actor) : Option Complaint :=
  if (delete_complaint complaint? confirm current_user).deleted then none else complaint?

/-- Durable complaint row after `update_complaint_status`. -/
def persisted_status_update (user : Actor) (status remarks : String)
    (complaint? : Option Complaint) (now : String) : Option Complaint :=
  let r := update_complaint_status user status remarks complaint? now
  if r.committed then r.session else complaint?

/-! ## Fixtures used by witnesses and counterexamples -/

/-- A staff member whose name appears in `annComplaint`. -/
def annStaff : Actor := ⟨"s1", "Ann Lee", "staff", none⟩

/-- A complaint whose title mentions the staff member `annStaff`. -/
def annComplaint : Complaint :=
  ⟨"c1", "Issue with Ann Lee", "details", "Hostel", "submitted",
   some "CS", none, none, none, [], []⟩

/-- Fixture: the HOD of the CS department. -/
def csHod : User := ⟨"h1", "Hod Person", "hod", some "CS", none⟩

/-- Fixture: first librarian. -/
def libStaff1 : User := ⟨"st1", "Lib One", "staff", none, some "Librarian"⟩

/-- Fixture: second librarian. -/
def libStaff2 : User := ⟨"st2", "Lib Two", "staff", none, some "Librarian"⟩

/-- Fixture: an open complaint assigned to `libStaff1`, giving them a
nonzero active load. -/
def loadedComplaint : Complaint :=
  ⟨"c9", "printer broken", "the library printer is broken", "Library",
   "submitted", some "CS", some "st1", some "Lib One", some "t0", [], []⟩

/-- Fixture store with one HOD and two librarians, one of them loaded. -/
def demoDb : Db := ⟨[csHod, libStaff1, libStaff2], [loadedComplaint]⟩

/-- Fixture: an admin actor. -/
def adminActor : Actor := ⟨"a1", "Admin A", "admin", none⟩

/-- Fixture: the staff actor matching the `libStaff1` user row. -/
def libOneActor : Actor := ⟨"st1", "Lib One", "staff", none⟩

/-- Fixture: a resolved complaint assigned to `libStaff1`. -/
def resolvedComplaint : Complaint :=
  ⟨"c10", "slow wifi", "the wifi is slow", "Infrastructure", "resolved",
   some "CS", some "st1", some "Lib One", some "t0", [], []⟩

/-! ## Helper lemmas about the selection loop -/

/-- Once the loop holds a candidate it never returns `none`. -/
theorem pickBest_some_acc (load : String → Nat) (b : User) (m : Nat) :
    ∀ (l : List User), pickBest load (some (b, m)) l ≠ none := by
  intro l
  induction l generalizing b m with
  | nil => simp [pickBest]
  | cons s rest ih =>
    simp only [pickBest]
    split
    · exact ih _ _
    · exact ih _ _

/-- On a nonempty list the loop returns a candidate. -/
theorem pickBest_cons_ne_none (load : String → Nat) (s : User) (rest : List User) :
    pickBest load none (s :: rest) ≠ none :=
  pickBest_some_acc load s (load s.id) rest

/-- Loop invariant: a returned candidate carries its own load, comes from
the list (or was the incoming accumulator), and its load is minimal both
over the list and against the accumulator. -/
theorem pickBest_inv (load : String → Nat) :
    ∀ (l : List User) (acc : Option (User × Nat)) (b : User) (m : Nat),
    (∀ b0 m0, acc = some (b0, m0) → m0 = load b0.id) →
    pickBest load acc l = some (b, m) →
    m = load b.id ∧ (b ∈ l ∨ acc = some (b, m)) ∧
    (∀ s ∈ l, m ≤ load s.id) ∧
    (∀ b0 m0, acc = some (b0, m0) → m ≤ m0) := by
  intro l
  induction l with
  | nil =>
    intro acc b m hacc hres
    simp only [pickBest] at hres
    refine ⟨hacc b m hres, Or.inr hres, ?_, ?_⟩
    · intro s hs; exact absurd hs (List.not_mem_nil s)
    · intro b0 m0 h0
      rw [hres] at h0
      simp only [Option.some.injEq, Prod.mk.injEq] at h0
      exact le_of_eq h0.2
  | cons s rest ih =>
    intro acc b m hacc hres
    rcases acc with _ | ⟨b0, m0⟩
    · simp only [pickBest] at hres
      have hacc' : ∀ x y, (some (s, load s.id) : Option (User × Nat)) = some (x, y) →
          y = load x.id := by
        intro x y hxy
        simp only [Option.some.injEq, Prod.mk.injEq] at hxy
        rw [← hxy.2, hxy.1]
      obtain ⟨him, hdisj, hbound, haccb⟩ := ih (some (s, load s.id)) b m hacc' hres
      refine ⟨him, ?_, ?_, ?_⟩
      · rcases hdisj with hmem | heq
        · exact Or.inl (List.mem_cons_of_mem s hmem)
        · simp only [Option.some.injEq, Prod.mk.injEq] at heq
          exact Or.inl (by rw [← heq.1]; exact List.mem_cons_self s rest)
      · intro t ht
        rcases List.mem_cons.mp ht with rfl | hmem
        · exact haccb t (load t.id) rfl
        · exact hbound t hmem
      · intro x y hxy; exact Option.noConfusion hxy
    · have hm0 : m0 = load b0.id := hacc b0 m0 rfl
      simp only [pickBest] at hres
      by_cases hlt : load s.id < m0
      · rw [if_pos hlt] at hres
        have hacc' : ∀ x y, (some (s, load s.id) : Option (User × Nat)) = some (x, y) →
            y = load x.id := by
          intro x y hxy
          simp only [Option.some.injEq, Prod.mk.injEq] at hxy
          rw [← hxy.2, hxy.1]
        obtain ⟨him, hdisj, hbound, haccb⟩ := ih (some (s, load s.id)) b m hacc' hres
        refine ⟨him, ?_, ?_, ?_⟩
        · rcases hdisj with hmem | heq
          · exact Or.inl (List.mem_cons_of_mem s hmem)
          · simp only [Option.some.injEq, Prod.mk.injEq] at heq
            exact Or.inl (by rw [← heq.1]; exact List.mem_cons_self s rest)
        · intro t ht
          rcases List.mem_cons.mp ht with rfl | hmem
          · exact haccb t (load t.id) rfl
          · exact hbound t hmem
        · intro x y hxy
          simp only [Option.some.injEq, Prod.mk.injEq] at hxy
          have h1 : m ≤ load s.id := haccb s (load s.id) rfl
          rw [← hxy.2]
          exact le_trans h1 (le_of_lt hlt)
      · rw [if_neg hlt] at hres
        have hacc' : ∀ x y, (some (b0, m0) : Option (User × Nat)) = some (x, y) →
            y = load x.id := by
          intro x y hxy
          simp only [Option.some.injEq, Prod.mk.injEq] at hxy
          rw [← hxy.2, ← hxy.1]
          exact hm0
        obtain ⟨him, hdisj, hbound, haccb⟩ := ih (some (b0, m0)) b m hacc' hres
        have hle0 : m ≤ m0 := haccb b0 m0 rfl
        refine ⟨him, ?_, ?_, ?_⟩
        · rcases hdisj with hmem | heq
          · exact Or.inl (List.mem_cons_of_mem s hmem)
          · exact Or.inr heq
        · intro t ht
          rcases List.mem_cons.mp ht with rfl | hmem
          · exact le_trans hle0 (Nat.le_of_not_lt hlt)
          · exact hbound t hmem
        · intro x y hxy
          simp only [Option.some.injEq, Prod.mk.injEq] at hxy
          rw [← hxy.2]
          exact hle0

/-! ## Claims -/

/-- C3 counterexample: the claim fixes `IsMentioned("Al", "Alfred's class",
…) = false`, but the code returns true — the two-character exclusion
guards only the whole-word branch, while the full-name substring check
finds "al" inside "alfred".  Moreover, for the empty name the claim's
if-and-only-if forces true (the empty string is a substring of every
text) while the code short-circuits to false. -/
theorem claim_C3_counterexample :
  is_staff_mentioned_in_complaint "Al" "Alfred\x27s class" "details" = true ∧
  mentioned_spec "" "a" "b" = true ∧
  is_staff_mentioned_in_complaint "" "a" "b" = false := by
  refine ⟨by decide, by decide, by decide⟩

/-- C3 (amended): for every nonempty person name, `IsMentioned` returns
true iff the lowercased, trimmed full name occurs as a substring of the
lowercased combined title+description text, or some whitespace-separated
name token longer than two characters occurs as a case-insensitive
whole-word match there; `IsMentioned("Ann Lee", "Issue with Ann Lee", …)`
and `IsMentioned("Dr. Rao", "title", "Professor Rao is unfair")` are true,
and `IsMentioned("Al", "Alfred's class", …)` is also true via the
full-name substring branch. -/
theorem claim_C3_amended :
  (∀ (name title description : String), name ≠ "" →
    is_staff_mentioned_in_complaint name title description =
      mentioned_spec name title description) ∧
  is_staff_mentioned_in_complaint "Ann Lee" "Issue with Ann Lee" "details" = true ∧
  is_staff_mentioned_in_complaint "Dr. Rao" "title" "Professor Rao is unfair" = true ∧
  is_staff_mentioned_in_complaint "Al" "Alfred\x27s class" "details" = true := by
  refine ⟨?_, by decide, by decide, by decide⟩
  intro n t d h
  simp only [is_staff_mentioned_in_complaint, mentioned_spec, normalize_name, if_neg h]
  cases hc : containsSub (stripWs (lowerChars n)) (lowerChars (t ++ " " ++ d)) <;>
    simp [hc]

/-- C3 witness: the amended equivalence evaluated at a concrete nonempty
name. -/
theorem claim_C3_witness :
  is_staff_mentioned_in_complaint "Ann Lee" "Issue with Ann Lee" "x" =
    mentioned_spec "Ann Lee" "Issue with Ann Lee" "x" :=
  claim_C3_amended.1 "Ann Lee" "Issue with Ann Lee" "x" (by decide)

/-- C10: `can_user_verify_complaint` blocks only the roles hod, staff and
principal; any other role (in particular admin) gets `(true, "")` even
when the actor's name is mentioned in the complaint text. -/
theorem claim_C10 :
    ∀ (user_name user_role complaint_title complaint_description : String),
    (user_role == "hod" || user_role == "staff" || user_role == "principal") = false →
    can_user_verify_complaint user_name user_role complaint_title complaint_description
      = (true, "") := by
  intro n r t d h
  simp only [Bool.or_eq_false_iff, beq_eq_false_iff_ne] at h
  obtain ⟨⟨h1, h2⟩, h3⟩ := h
  have hcont : ((["staff", "principal"] : List String).contains r) = false := by
    apply Bool.eq_false_iff.mpr
    intro hc
    have hmem : r ∈ (["staff", "principal"] : List String) := List.elem_iff.mp hc
    simp only [List.mem_cons, List.mem_singleton, List.not_mem_nil, or_false] at hmem
    rcases hmem with h' | h'
    · exact h2 h'
    · exact h3 h'
  unfold can_user_verify_complaint
  split
  · split
    · rename_i hc; rw [hcont] at hc; exact Bool.noConfusion hc
    · rfl
  · rfl

/-- C10 witness: a mentioned admin is still allowed to verify. -/
theorem claim_C10_witness :
    can_user_verify_complaint "Ann Lee" "admin" "Issue with Ann Lee" "d" = (true, "") :=
  claim_C10 "Ann Lee" "admin" "Issue with Ann Lee" "d" (by decide)

/-- C1 counterexample: a staff actor mentioned in the complaint sets the
status to resolved through the staff-accessible SetStatus path
(`update_complaint`) and succeeds — the status change is applied and
committed, with no conflict-of-interest rejection. -/
theorem claim_C1_counterexample :
  is_staff_mentioned_in_complaint annStaff.name annComplaint.title annComplaint.description = true ∧
  (update_complaint annStaff ⟨some "resolved", none, none⟩ (some annComplaint) [] "t0").response.success = true ∧
  (update_complaint annStaff ⟨some "resolved", none, none⟩ (some annComplaint) [] "t0").committed = true ∧
  (persisted_update annStaff ⟨some "resolved", none, none⟩ (some annComplaint) [] "t0").map
    Complaint.status = some "resolved" := by
  refine ⟨by decide, by decide, by decide, by decide⟩

/-- C1 (amended): the conflict-of-interest rejection for a mentioned actor
exists only on the dedicated status endpoint `update_complaint_status`:
its handler rejects every mentioned staff actor with
`escalate_to = hod` (the escalation of the staff role), HTTP 403, no
status change and no commit — but that endpoint's role gate does not
admit the staff role at all, and the staff-accessible SetStatus path
(`update_complaint`) applies a mentioned staff actor's status change
without any conflict check (see the counterexample). -/
theorem claim_C1_amended : ∀ (actor : Actor) (c : Complaint) (st remarks now : String),
    actor.role = "staff" →
    is_staff_mentioned_in_complaint actor.name c.title c.description = true →
    require_roles_allows STATUS_ENDPOINT_ROLES actor.role = false ∧
    (update_complaint_status actor st remarks (some c) now).response.success = false ∧
    (update_complaint_status actor st remarks (some c) now).response.statusCode = 403 ∧
    (update_complaint_status actor st remarks (some c) now).response.escalateTo = some "hod" ∧
    (update_complaint_status actor st remarks (some c) now).committed = false ∧
    persisted_status_update actor st remarks (some c) now = some c := by
  intro a c st rem now hr hm
  have hgate : require_roles_allows STATUS_ENDPOINT_ROLES a.role = false := by
    rw [hr]; decide
  have hcv : can_user_verify_complaint a.name a.role c.title c.description =
      (false, "You cannot handle this complaint as you (" ++ a.name ++
        ") are mentioned in it.") := by
    unfold can_user_verify_complaint
    rw [hm, hr]
    rw [if_pos rfl]
    rw [if_neg (by decide : ¬ ("staff" : String) = "hod")]
    rw [if_pos (by decide : ((["staff", "principal"] : List String).contains "staff") = true)]
  have hesc : get_escalation_authority a.role = some "hod" := by
    rw [hr]; decide
  refine ⟨hgate, ?_, ?_, ?_, ?_, ?_⟩ <;>
    simp [update_complaint_status, persisted_status_update, hcv, hesc]

/-- C4: for a category in the HOD-authority set, auto-assignment either
returns nothing or returns a user row with role hod whose department is
the student's department; an unknown/empty department or a department
without a HOD yields nothing. -/
theorem claim_C4 :
    ∀ (category : String) (db : Db) (dept? : Option String),
    HOD_CATEGORIES.contains category = true →
    (optTruthy dept? = false → auto_assign_complaint category db dept? = none) ∧
    (auto_assign_complaint category db dept? = none ∨
      ∃ u, u ∈ db.users ∧ u.role = "hod" ∧ u.department = dept? ∧
        auto_assign_complaint category db dept? = some (u.id, u.name)) ∧
    ((∀ u, u ∈ db.users → u.role = "hod" → u.department ≠ dept?) →
      auto_assign_complaint category db dept? = none) := by
  intro category db dept? hcat
  have hne : category ≠ "" := by
    intro e; subst e; exact absurd hcat (by decide)
  have hmem : category ∈ HOD_CATEGORIES := List.elem_iff.mp hcat
  rcases dept? with _ | d
  · have hval : auto_assign_complaint category db none = none := by
      simp [auto_assign_complaint, hne, hmem]
    exact ⟨fun _ => hval, Or.inl hval, fun _ => hval⟩
  · by_cases hd : d = ""
    · subst hd
      have hval : auto_assign_complaint category db (some "") = none := by
        simp [auto_assign_complaint, hne, hmem]
      exact ⟨fun _ => hval, Or.inl hval, fun _ => hval⟩
    · refine ⟨?_, ?_, ?_⟩
      · intro hfalse
        have : optTruthy (some d) = true := by simp [optTruthy, hd]
        rw [this] at hfalse
        exact Bool.noConfusion hfalse
      · cases hh : db.users.find? (hod_match d) with
        | none =>
          left
          simp [auto_assign_complaint, hne, hmem, hd, hh]
        | some u =>
          right
          have hu_users := List.mem_of_find?_eq_some hh
          have hu : u.role = "hod" ∧ u.department = some d := by
            simpa [hod_match] using List.find?_some hh
          refine ⟨u, hu_users, hu.1, hu.2, ?_⟩
          simp [auto_assign_complaint, hne, hmem, hd, hh]
      · intro hno
        have hfind : db.users.find? (hod_match d) = none := by
          rw [List.find?_eq_none]
          intro a ha
          simp only [hod_match, Bool.and_eq_true, beq_iff_eq, not_and]
          intro h1 h2
          exact hno a ha h1 h2
        simp [auto_assign_complaint, hne, hmem, hd, hfind]

/-- C4 witness: an Academic Issues complaint from the CS department is
routed to the CS HOD of the fixture store. -/
theorem claim_C4_witness :
  HOD_CATEGORIES.contains "Academic Issues" = true ∧
  ((optTruthy (some "CS") = false →
      auto_assign_complaint "Academic Issues" demoDb (some "CS") = none) ∧
   (auto_assign_complaint "Academic Issues" demoDb (some "CS") = none ∨
     ∃ u, u ∈ demoDb.users ∧ u.role = "hod" ∧ u.department = some "CS" ∧
       auto_assign_complaint "Academic Issues" demoDb (some "CS") = some (u.id, u.name)) ∧
   ((∀ u, u ∈ demoDb.users → u.role = "hod" → u.department ≠ some "CS") →
     auto_assign_complaint "Academic Issues" demoDb (some "CS") = none)) :=
  ⟨by decide, claim_C4 "Academic Issues" demoDb (some "CS") (by decide)⟩

/-- C5: for a non-HOD category mapped to a staff role, if at least one
staff user holds that role then auto-assignment returns a matching
candidate whose active load is minimal among all matching candidates. -/
theorem claim_C5 :
    ∀ (category : String) (db : Db) (dept? : Option String) (r : String),
    HOD_CATEGORIES.contains category = false →
    CATEGORY_TO_STAFF_ROLE.lookup category = some r →
    (∃ u, u ∈ db.users ∧ u.role = "staff" ∧ u.staff_role = some r) →
    ∃ u, u ∈ db.users ∧ u.role = "staff" ∧ u.staff_role = some r ∧
      auto_assign_complaint category db dept? = some (u.id, u.name) ∧
      ∀ v, v ∈ db.users → v.role = "staff" → v.staff_role = some r →
        active_load db u.id ≤ active_load db v.id := by
  intro category db dept? r hnothod hmap hex
  have hne : category ≠ "" := by
    intro e; subst e
    rw [show CATEGORY_TO_STAFF_ROLE.lookup "" = none from by decide] at hmap
    exact Option.noConfusion hmap
  have hnotmem : category ∉ HOD_CATEGORIES := by
    intro hmem
    have h2 : HOD_CATEGORIES.contains category = true := List.elem_iff.mpr hmem
    rw [h2] at hnothod
    exact Bool.noConfusion hnothod
  obtain ⟨w, hw_mem, hw_role, hw_sr⟩ := hex
  have hw_fil : w ∈ db.users.filter (staff_role_match r) :=
    List.mem_filter.mpr ⟨hw_mem, by simp [staff_role_match, hw_role, hw_sr]⟩
  cases hfil : db.users.filter (staff_role_match r) with
  | nil => rw [hfil] at hw_fil; exact absurd hw_fil (List.not_mem_nil w)
  | cons s rest =>
    cases hpb : pickBest (active_load db) none (s :: rest) with
    | none => exact absurd hpb (pickBest_cons_ne_none (active_load db) s rest)
    | some pair =>
      obtain ⟨b, m⟩ := pair
      obtain ⟨hm, hdisj, hbound, _⟩ :=
        pickBest_inv (active_load db) (s :: rest) none b m
          (fun x y hxy => Option.noConfusion hxy) hpb
      have hb_fil : b ∈ db.users.filter (staff_role_match r) := by
        rw [hfil]
        rcases hdisj with h | h
        · exact h
        · exact Option.noConfusion h
      obtain ⟨hb_users, hb_p⟩ := List.mem_filter.mp hb_fil
      have hb : b.role = "staff" ∧ b.staff_role = some r := by
        simpa [staff_role_match] using hb_p
      refine ⟨b, hb_users, hb.1, hb.2, ?_, ?_⟩
      · simp [auto_assign_complaint, hne, hnotmem, hmap, hfil, hpb]
      · intro v hv_mem hv_role hv_sr
        have hv_fil : v ∈ db.users.filter (staff_role_match r) :=
          List.mem_filter.mpr ⟨hv_mem, by simp [staff_role_match, hv_role, hv_sr]⟩
        rw [hfil] at hv_fil
        have := hbound v hv_fil
        rw [hm] at this
        exact this

/-- C5 witness: for the Library category the fixture store holds two
librarians; the one with the smaller active load is selected. -/
theorem claim_C5_witness :
  ∃ u, u ∈ demoDb.users ∧ u.role = "staff" ∧ u.staff_role = some "Librarian" ∧
    auto_assign_complaint "Library" demoDb none = some (u.id, u.name) ∧
    ∀ v, v ∈ demoDb.users → v.role = "staff" → v.staff_role = some "Librarian" →
      active_load demoDb u.id ≤ active_load demoDb v.id :=
  claim_C5 "Library" demoDb none "Librarian" (by decide) (by decide)
    ⟨libStaff1, by decide, by decide, by decide⟩

/-- C9: auto-assignment is total — every input yields either a handler
pair or nothing; an empty category, a category outside both the
HOD-authority set and the category-to-role table, and an empty candidate
pool all yield nothing. -/
theorem claim_C9 :
    (∀ (category : String) (db : Db) (dept? : Option String),
      auto_assign_complaint category db dept? = none ∨
      ∃ sid sname, auto_assign_complaint category db dept? = some (sid, sname)) ∧
    (∀ (db : Db) (dept? : Option String), auto_assign_complaint "" db dept? = none) ∧
    (∀ (category : String) (db : Db) (dept? : Option String),
      HOD_CATEGORIES.contains category = false →
      CATEGORY_TO_STAFF_ROLE.lookup category = none →
      auto_assign_complaint category db dept? = none) ∧
    (∀ (category : String) (db : Db) (dept? : Option String) (r : String),
      HOD_CATEGORIES.contains category = false →
      CATEGORY_TO_STAFF_ROLE.lookup category = some r →
      (∀ u, u ∈ db.users → ¬(u.role = "staff" ∧ u.staff_role = some r)) →
      auto_assign_complaint category db dept? = none) := by
  refine ⟨?_, ?_, ?_, ?_⟩
  · intro category db dept?
    cases h : auto_assign_complaint category db dept? with
    | none => exact Or.inl rfl
    | some p =>
      obtain ⟨sid, sname⟩ := p
      exact Or.inr ⟨sid, sname, rfl⟩
  · intro db dept?
    simp [auto_assign_complaint]
  · intro category db dept? hnothod hmap
    have hnotmem : category ∉ HOD_CATEGORIES := by
      intro hmem
      have h2 : HOD_CATEGORIES.contains category = true := List.elem_iff.mpr hmem
      rw [h2] at hnothod
      exact Bool.noConfusion hnothod
    by_cases hne : category = ""
    · subst hne; simp [auto_assign_complaint]
    · simp [auto_assign_complaint, hne, hnotmem, hmap]
  · intro category db dept? r hnothod hmap hno
    have hne : category ≠ "" := by
      intro e; subst e
      rw [show CATEGORY_TO_STAFF_ROLE.lookup "" = none from by decide] at hmap
      exact Option.noConfusion hmap
    have hnotmem : category ∉ HOD_CATEGORIES := by
      intro hmem
      have h2 : HOD_CATEGORIES.contains category = true := List.elem_iff.mpr hmem
      rw [h2] at hnothod
      exact Bool.noConfusion hnothod
    have hfil : db.users.filter (staff_role_match r) = [] := by
      rw [List.filter_eq_nil_iff]
      intro a ha
      simp only [staff_role_match, Bool.and_eq_true, beq_iff_eq, not_and]
      intro h1 h2
      exact hno a ha ⟨h1, h2⟩
    simp [auto_assign_complaint, hne, hnotmem, hmap, hfil]

/-- C9 witness: the category "Other" is outside both tables and yields no
assignment. -/
theorem claim_C9_witness :
  auto_assign_complaint "Other" demoDb (some "CS") = none :=
  claim_C9.2.2.1 "Other" demoDb (some "CS") (by decide) (by decide)

set_option maxHeartbeats 2000000 in
/-- Every error response of `update_complaint` is produced on a path that
never reaches `session.commit()`. -/
theorem update_complaint_error_no_commit :
    ∀ (cu : Actor) (ud : ComplaintUpdate) (complaint? : Option Complaint)
      (users : List User) (now : String),
    (update_complaint cu ud complaint? users now).response.success = false →
    (update_complaint cu ud complaint? users now).committed = false := by
  intro cu ud complaint? users now
  simp only [update_complaint, guardFail]
  repeat' split
  all_goals intro h
  all_goals first
    | rfl
    | simp at h

/-- Every error response of `delete_complaint` is produced before the
delete/commit. -/
theorem delete_complaint_error_not_deleted :
    ∀ (complaint? : Option Complaint) (confirm : Bool) (cu : Actor),
    (delete_complaint complaint? confirm cu).response.success = false →
    (delete_complaint complaint? confirm cu).deleted = false := by
  intro complaint? confirm cu
  unfold delete_complaint
  repeat' split
  all_goals intro h
  all_goals first
    | rfl
    | simp at h

/-- Every error response of `update_complaint_status` is produced before
the status write and commit. -/
theorem update_complaint_status_error_no_commit :
    ∀ (user : Actor) (st remarks : String) (complaint? : Option Complaint) (now : String),
    (update_complaint_status user st remarks complaint? now).response.success = false →
    (update_complaint_status user st remarks complaint? now).committed = false := by
  intro user st remarks complaint? now
  simp only [update_complaint_status]
  repeat' split
  all_goals intro h
  all_goals first
    | rfl
    | simp at h

/-- C2: every guard failure of the mutating complaint operations (update
with status and/or assignment, delete, dedicated status change) leaves the
durable complaint row exactly as it was — no field modified, no timeline
entry appended, nothing deleted. -/
theorem claim_C2 :
    (∀ (cu : Actor) (ud : ComplaintUpdate) (complaint? : Option Complaint)
       (users : List User) (now : String),
      (update_complaint cu ud complaint? users now).response.success = false →
      (update_complaint cu ud complaint? users now).committed = false ∧
      persisted_update cu ud complaint? users now = complaint?) ∧
    (∀ (complaint? : Option Complaint) (confirm : Bool) (cu : Actor),
      (delete_complaint complaint? confirm cu).response.success = false →
      (delete_complaint complaint? confirm cu).deleted = false ∧
      persisted_delete complaint? confirm cu = complaint?) ∧
    (∀ (user : Actor) (st remarks : String) (complaint? : Option Complaint) (now : String),
      (update_complaint_status user st remarks complaint? now).response.success = false →
      (update_complaint_status user st remarks complaint? now).committed = false ∧
      persisted_status_update user st remarks complaint? now = complaint?) := by
  refine ⟨?_, ?_, ?_⟩
  · intro cu ud complaint? users now h
    have hc := update_complaint_error_no_commit cu ud complaint? users now h
    exact ⟨hc, by simp [persisted_update, hc]⟩
  · intro complaint? confirm cu h
    have hc := delete_complaint_error_not_deleted complaint? confirm cu h
    exact ⟨hc, by simp [persisted_delete, hc]⟩
  · intro user st remarks complaint? now h
    have hc := update_complaint_status_error_no_commit user st remarks complaint? now h
    exact ⟨hc, by simp [persisted_status_update, hc]⟩

/-- C2 witness: a single request by a staff actor carrying both a status
change and an assignment to a nonexistent user fails on the assignment
guard, and the durable row is untouched (in particular the already
locally-applied status change is discarded). -/
theorem claim_C2_witness :
  (update_complaint annStaff ⟨some "resolved", none, some "ghost"⟩
      (some annComplaint) [] "t0").committed = false ∧
  persisted_update annStaff ⟨some "resolved", none, some "ghost"⟩
      (some annComplaint) [] "t0" = some annComplaint :=
  claim_C2.1 annStaff ⟨some "resolved", none, some "ghost"⟩ (some annComplaint) [] "t0"
    (by decide)

/-- C6: whenever `update_complaint` succeeds on a request that carries an
assignment, the resulting complaint has status in_progress (regardless of
the prior status), the target id as `assigned_to`, a nonempty
`assigned_to_name`, and `assigned_at` set, and the change is committed. -/
theorem claim_C6 :
    ∀ (cu : Actor) (ud : ComplaintUpdate) (c0 : Complaint) (users : List User)
      (now t : String),
    ud.assigned_to = some t → t ≠ "" →
    (update_complaint cu ud (some c0) users now).response.success = true →
    ∃ c', (update_complaint cu ud (some c0) users now).session = some c' ∧
      (update_complaint cu ud (some c0) users now).committed = true ∧
      c'.status = "in_progress" ∧ c'.assigned_to = some t ∧
      c'.assigned_to_name.isSome = true ∧ c'.assigned_at = some now := by
  intro cu ud c0 users now t hta htne
  have htruthy : optTruthy ud.assigned_to = true := by
    simp [hta, optTruthy, htne]
  simp only [update_complaint, guardFail]
  repeat' split
  all_goals intro hsucc
  all_goals try simp at hsucc
  all_goals first
    | exact absurd htruthy (by assumption)
    | exact ⟨_, rfl, rfl, rfl, hta, rfl, rfl⟩

/-- C6 witness: an admin assigns the fixture Library complaint to the
first librarian; the committed row is in_progress and fully stamped. -/
theorem claim_C6_witness :
  ∃ c', (update_complaint adminActor ⟨none, none, some "st1"⟩ (some loadedComplaint)
          demoDb.users "t1").session = some c' ∧
    (update_complaint adminActor ⟨none, none, some "st1"⟩ (some loadedComplaint)
          demoDb.users "t1").committed = true ∧
    c'.status = "in_progress" ∧ c'.assigned_to = some "st1" ∧
    c'.assigned_to_name.isSome = true ∧ c'.assigned_at = some "t1" :=
  claim_C6 adminActor ⟨none, none, some "st1"⟩ loadedComplaint demoDb.users "t1" "st1"
    rfl (by decide) (by decide)

/-- C7: a status-only update is applied (status written, timeline entry
appended, committed) for admin, staff and principal actors, and rejected
with HTTP 403 and no commit for every HOD actor, for every complaint and
every nonempty target status value. -/
theorem claim_C7 :
    ∀ (cu : Actor) (c0 : Complaint) (users : List User) (now st : String),
    st ≠ "" →
    ((cu.role = "admin" ∨ cu.role = "staff" ∨ cu.role = "principal") →
      (update_complaint cu ⟨some st, none, none⟩ (some c0) users now).response.success = true ∧
      (update_complaint cu ⟨some st, none, none⟩ (some c0) users now).committed = true ∧
      (update_complaint cu ⟨some st, none, none⟩ (some c0) users now).session =
        some { c0 with
          status := st,
          timeline := c0.timeline ++
            [TimelineEntry.statusEntry st now ("Status updated to " ++ st) cu.name] }) ∧
    (cu.role = "hod" →
      (update_complaint cu ⟨some st, none, none⟩ (some c0) users now).response.success = false ∧
      (update_complaint cu ⟨some st, none, none⟩ (some c0) users now).response.statusCode = 403 ∧
      (update_complaint cu ⟨some st, none, none⟩ (some c0) users now).committed = false ∧
      persisted_update cu ⟨some st, none, none⟩ (some c0) users now = some c0) := by
  intro cu c0 users now st hst
  constructor
  · intro hrole
    rcases hrole with h | h | h <;>
      simp [update_complaint, apply_status_change, apply_response_append, h, optTruthy, hst]
  · intro h
    simp [update_complaint, persisted_update, h, optTruthy, hst]

/-- C7 witness: an admin moves the fixture complaint to reviewed and the
change is committed. -/
theorem claim_C7_witness :
  (update_complaint adminActor ⟨some "reviewed", none, none⟩ (some annComplaint) [] "t1").response.success = true ∧
  (update_complaint adminActor ⟨some "reviewed", none, none⟩ (some annComplaint) [] "t1").committed = true :=
  And.intro
    ((claim_C7 adminActor annComplaint [] "t1" "reviewed" (by decide)).1 (Or.inl rfl)).1
    ((claim_C7 adminActor annComplaint [] "t1" "reviewed" (by decide)).1 (Or.inl rfl)).2.1

/-- C8: deleting requires confirm=true (else 400); with confirmation an
admin deletes unconditionally; a staff actor deletes only their own
resolved complaints (403 when not assigned to them, 400 when not
resolved); every other role gets 403. -/
theorem claim_C8 :
    ∀ (c : Complaint) (confirm : Bool) (cu : Actor),
    (confirm = false →
      (delete_complaint (some c) confirm cu).response.success = false ∧
      (delete_complaint (some c) confirm cu).response.statusCode = 400 ∧
      (delete_complaint (some c) confirm cu).deleted = false) ∧
    (confirm = true → cu.role = "admin" →
      (delete_complaint (some c) confirm cu).response.success = true ∧
      (delete_complaint (some c) confirm cu).deleted = true) ∧
    (confirm = true → cu.role = "staff" →
      (c.assigned_to ≠ some cu.id →
        (delete_complaint (some c) confirm cu).response.success = false ∧
        (delete_complaint (some c) confirm cu).response.statusCode = 403 ∧
        (delete_complaint (some c) confirm cu).deleted = false) ∧
      (c.assigned_to = some cu.id → c.status ≠ "resolved" →
        (delete_complaint (some c) confirm cu).response.success = false ∧
        (delete_complaint (some c) confirm cu).response.statusCode = 400 ∧
        (delete_complaint (some c) confirm cu).deleted = false) ∧
      (c.assigned_to = some cu.id → c.status = "resolved" →
        (delete_complaint (some c) confirm cu).response.success = true ∧
        (delete_complaint (some c) confirm cu).deleted = true)) ∧
    (confirm = true → cu.role ≠ "admin" → cu.role ≠ "staff" →
      (delete_complaint (some c) confirm cu).response.success = false ∧
      (delete_complaint (some c) confirm cu).response.statusCode = 403 ∧
      (delete_complaint (some c) confirm cu).deleted = false) := by
  intro c confirm cu
  refine ⟨?_, ?_, ?_, ?_⟩
  · intro h
    subst h
    simp [delete_complaint]
  · intro h hrole
    subst h
    simp [delete_complaint, hrole]
  · intro h hrole
    subst h
    refine ⟨?_, ?_, ?_⟩
    · intro hassign
      simp [delete_complaint, hrole, hassign]
    · intro hassign hstat
      simp [delete_complaint, hrole, hassign, hstat]
    · intro hassign hstat
      simp [delete_complaint, hrole, hassign, hstat]
  · intro h hadmin hstaff
    subst h
    simp [delete_complaint, hadmin, hstaff]

/-- C8 witness: the assigned staff actor completes their own resolved
fixture complaint with confirmation. -/
theorem claim_C8_witness :
  resolvedComplaint.assigned_to = some libOneActor.id ∧
  resolvedComplaint.status = "resolved" ∧
  (delete_complaint (some resolvedComplaint) true libOneActor).response.success = true ∧
  (delete_complaint (some resolvedComplaint) true libOneActor).deleted = true :=
  ⟨rfl, rfl, ((claim_C8 resolvedComplaint true libOneActor).2.2.1 rfl rfl).2.2 rfl rfl⟩

/-- C1 witness: the amended statement evaluated at the fixture staff actor
and complaint. -/
theorem claim_C1_witness :
  require_roles_allows STATUS_ENDPOINT_ROLES annStaff.role = false ∧
  (update_complaint_status annStaff "resolved" "r" (some annComplaint) "t0").response.success = false ∧
  (update_complaint_status annStaff "resolved" "r" (some annComplaint) "t0").response.statusCode = 403 ∧
  (update_complaint_status annStaff "resolved" "r" (some annComplaint) "t0").response.escalateTo = some "hod" ∧
  (update_complaint_status annStaff "resolved" "r" (some annComplaint) "t0").committed = false ∧
  persisted_status_update annStaff "resolved" "r" (some annComplaint) "t0" = some annComplaint :=
  claim_C1_amended annStaff annComplaint "resolved" "r" "t0" (by decide) (by decide)

end CampusVoice
